import Mathlib

/-!
Verification of the stock screener (screener.py) against its specification.

The program is shallowly embedded: pandas series become lists of bars,
python floats become exact rationals, the TradingView provider becomes an
abstract function argument, and the thread-pool batch is modelled by its
aggregated content (the set of futures is created from the full symbol
list up front, and as_completed only permutes collection order, so the
multiset of collected results is order independent).  Exceptions become
Option / explicit error values, mirroring each try/except in the source.
-/

namespace StockScreener

/-- One OHLCV bar (one row of the fetched dataframe). -/
structure Bar where
  openP : ℚ
  high : ℚ
  low : ℚ
  close : ℚ
  volume : ℚ
  deriving DecidableEq

/-- An ordered OHLCV series, ascending by time; the last element is the
most recent bar (iloc[-1] in the source). -/
abbrev Series := List Bar

/-- The close column of the dataframe. -/
def closes (df : Series) : List ℚ := df.map Bar.close

/-- The volume column of the dataframe. -/
def volumes (df : Series) : List ℚ := df.map Bar.volume

/-- The most recent bar, read with iloc[-1]; the default value is never
reached because every caller guards on a nonempty series. -/
def lastBar (df : Series) : Bar := df.getLast?.getD ⟨0, 0, 0, 0, 0⟩

/-- Arithmetic mean of a whole column (pandas Series.mean), used for
df[volume].mean() at line 94 of screener.py. -/
def listMean (xs : List ℚ) : ℚ := xs.sum / (xs.length : ℚ)

/-- Last value of a rolling(w).mean() column: the mean of the final w
entries (defined in pandas once at least w rows exist; both uses are
guarded by len(df) >= 200 in the source). -/
def rollingMeanLast (w : ℕ) (xs : List ℚ) : ℚ :=
  (xs.drop (xs.length - w)).sum / (w : ℚ)

/-- Consecutive close-to-close deltas, pandas Series.diff(1); the leading
NaN produced by diff is handled separately in rsiLast, matching the
where-clauses of ta.momentum.RSIIndicator which turn it into 0. -/
def diff1 (xs : List ℚ) : List ℚ := (xs.zip (xs.drop 1)).map (fun p => p.2 - p.1)

/-- Last value of an ewm(alpha=1/w, adjust=False).mean() column whose
input starts with the 0 coming from the masked leading NaN: the Wilder
recursion y0 = 0, y(i) = y(i-1) + (x(i) - y(i-1))/w. -/
def wilderLast (w : ℕ) (xs : List ℚ) : ℚ :=
  xs.foldl (fun acc v => acc + (v - acc) / (w : ℚ)) 0

/-- Last value of ta.momentum.RSIIndicator(close, window=w).rsi():
Wilder-smoothed average gain and loss over the deltas, then
100 - 100/(1 + rs); when the smoothed loss is zero the library emits 100
(np.where on emadn == 0). -/
def rsiLast (w : ℕ) (cs : List ℚ) : ℚ :=
  let ds := diff1 cs
  let avgGain := wilderLast w (ds.map fun d => if 0 < d then d else 0)
  let avgLoss := wilderLast w (ds.map fun d => if d < 0 then -d else 0)
  if avgLoss = 0 then 100 else 100 - 100 / (1 + avgGain / avgLoss)

/-- The values screen_stock reads from the last row after
calculate_indicators has run (lines 89-95 of screener.py). -/
structure IndicatorSnapshot where
  current_price : ℚ
  dma_50 : ℚ
  dma_200 : ℚ
  day_high : ℚ
  rsi : ℚ
  current_volume : ℚ
  avg_volume : ℚ
  deriving DecidableEq

/-- calculate_indicators (lines 78-82) restricted to what the screen then
reads at iloc[-1], together with the mean volume of line 94: the 50 and
200 bar moving averages, the 14 bar RSI, the latest close, high and
volume. -/
def calculate_indicators (df : Series) : IndicatorSnapshot :=
  { current_price := (lastBar df).close
    dma_50 := rollingMeanLast 50 (closes df)
    dma_200 := rollingMeanLast 200 (closes df)
    day_high := (lastBar df).high
    rsi := rsiLast 14 (closes df)
    current_volume := (lastBar df).volume
    avg_volume := listMean (volumes df) }

/-- The five-way criterion of line 98 of screener.py. -/
def meets_criteria (s : IndicatorSnapshot) : Bool :=
  decide (s.current_price > s.dma_50) &&
  decide (s.current_price > s.dma_200) &&
  decide (s.current_price ≥ s.day_high * (999 / 1000)) &&
  decide (s.rsi < 70) &&
  decide (s.current_volume > s.avg_volume)

/-- screen_stock (lines 84-101) applied to an already fetched result:
None when the fetch yielded nothing, otherwise the symbol when the series
has at least 200 bars and the criterion holds, and None in every other
case. -/
def screen_stock (symbol : String) (df : Option Series) : Option String :=
  match df with
  | none => none
  | some df =>
    if 200 ≤ df.length then
      if meets_criteria (calculate_indicators df) then some symbol else none
    else none

/-- fetch_historical_data (lines 67-76) over an abstract provider: a
provider exception or a None dataframe is the none case, an empty
dataframe is also mapped to None by the df.empty check. -/
def fetch_historical_data (provider : String → Option Series) (symbol : String) :
    Option Series :=
  match provider symbol with
  | none => none
  | some df => if df.isEmpty then none else some df

/-- screen_stock including its own fetch call (line 86). -/
def screen_stock_fetch (provider : String → Option Series) (symbol : String) :
    Option String :=
  screen_stock symbol (fetch_historical_data provider symbol)

/-- Outcome of one submitted unit as observed by future.result() in main:
either the returned optional symbol or a raised exception. -/
inductive UnitResult where
  | ok (r : Option String) : UnitResult
  | exn (msg : String) : UnitResult
  deriving DecidableEq

/-- The try/except of lines 119-125: a normal result is kept, a raised
exception is logged and contributes nothing to selected_stocks. -/
def runUnit : UnitResult → Option String
  | .ok r => r
  | .exn _ => none

/-- Aggregated content of selected_stocks after the as_completed loop
(lines 117-125): one future per element of the submitted list, truthy
results appended.  Collection order may differ between runs but the
multiset of appended symbols is this filterMap. -/
def collect (units : String → UnitResult) (symbols : List String) : List String :=
  symbols.filterMap (fun s => runUnit (units s))

/-- The batch screen of main when no unit raises: every symbol of the
universe is submitted and screened against the provider. -/
def screen_batch (provider : String → Option Series) (symbols : List String) :
    List String :=
  collect (fun s => .ok (screen_stock_fetch provider s)) symbols

set_option linter.unusedVariables false in
/-- The batch loop with the stop_flag (line 62) in scope.  The flag is
set by signal_handler (line 143) but never read anywhere in main or
screen_stock, so the embedding records it as an unused argument. -/
def screen_batch_flagged (stop_flag : Bool) (provider : String → Option Series)
    (symbols : List String) : List String :=
  screen_batch provider symbols

/-- One live subscription as created by lines 133-135: a seis handle for
a symbol with the number of consumers attached to it. -/
structure Seis where
  symbol : String
  consumers : ℕ
  deriving DecidableEq

/-- One iteration of the subscription loop (lines 132-135): tvl.new_seis
opens a feed, new_consumer attaches one consumer, the handle is appended
to seis_list.  No check against already open subscriptions is made. -/
def subscribe (seis_list : List Seis) (symbol : String) : List Seis :=
  seis_list ++ [⟨symbol, 1⟩]

/-- The whole subscription loop over the selected stocks. -/
def subscribe_all (selected : List String) : List Seis :=
  selected.foldl subscribe []

/-- The teardown loop of signal_handler (lines 144-146), with the
behaviour of del_consumer abstracted as a failure predicate.  The result
pairs every seis on which teardown was attempted with whether del_seis
(the close step) was reached, plus the symbol whose detach raised, if
any.  The loop body has no try/except, so a raising del_consumer skips
del_seis for that seis and aborts the remaining iterations. -/
def signal_handler_teardown (detachFails : String → Bool) :
    List String → List (String × Bool) × Option String
  | [] => ([], none)
  | s :: rest =>
    if detachFails s then
      ([(s, false)], some s)
    else
      let r := signal_handler_teardown detachFails rest
      ((s, true) :: r.1, r.2)

/-- Observable outcome of a run of main (lines 112-135 plus the
sys.exit(1) of load_stock_symbols): either a process exit with a code, or
normal completion carrying the selected stocks and the subscriptions
opened for them. -/
inductive MainOutcome where
  | fatalExit (code : ℕ) : MainOutcome
  | completed (selected : List String) (subs : List Seis) : MainOutcome
  deriving DecidableEq

/-- load_stock_symbols (lines 103-110) over an abstract read result: a
raised read error becomes sys.exit(1); any successfully parsed list, the
empty one included, is returned as is. -/
def load_stock_symbols : Except String (List String) → Except ℕ (List String)
  | .error _ => .error 1
  | .ok syms => .ok syms

/-- main (lines 112-135): exit 1 if loading raised; otherwise screen the
universe when it is nonempty (an empty list only logs a warning and skips
the batch), then open one subscription per selected stock and finish
normally. -/
def main (loaded : Except String (List String)) (provider : String → Option Series) :
    MainOutcome :=
  match load_stock_symbols loaded with
  | .error c => .fatalExit c
  | .ok syms =>
    let selected := if syms.isEmpty then [] else screen_batch provider syms
    .completed selected (subscribe_all selected)

/-- Whether a run ended by aborting the process with a non-zero status. -/
def exitsNonZero : MainOutcome → Bool
  | .fatalExit c => c != 0
  | .completed _ _ => false

/-- A quiet bar: flat price, unit volume. -/
def b100 : Bar := ⟨100, 100, 100, 100, 1⟩

/-- A dip bar used to give the RSI a nonzero smoothed loss. -/
def b95 : Bar := ⟨95, 100, 90, 95, 1⟩

/-- A breakout bar closing on its high with heavy volume. -/
def bLast : Bar := ⟨101, 101, 95, 101, 300⟩

/-- A 200 bar series that passes all five criteria: close 101 above both
moving averages (99.92 and 99.98), close equal to the day high, RSI
8400/149 (about 56.4), volume 300 against a mean of 2.495. -/
def passSeries : Series := List.replicate 198 b100 ++ [b95, bLast]

/-- A 200 bar series of identical flat bars: the indicators are defined
but every strict criterion fails, a Fail verdict in the sense of the
specification. -/
def sFail200 : Series := List.replicate 200 b100

/-- A 120 bar series, shorter than the 200 bar window: an Unavailable
case in the sense of the specification, whatever its values. -/
def s120 : Series := List.replicate 118 b100 ++ [b95, bLast]

/-- A provider for which every symbol has the passing series. -/
def pPass : String → Option Series := fun _ => some passSeries

/-- A provider with data only for symbol A. -/
def pOnlyA : String → Option Series :=
  fun s => if s == "A" then some passSeries else none

/-- A provider mapping symbol U to the short series and symbol F to the
flat failing series. -/
def pUF : String → Option Series :=
  fun s => if s == "U" then some s120 else some sFail200

/-- Units where screening symbol B raises an exception. -/
def unitsExnB : String → UnitResult :=
  fun s => if s == "B" then .exn "boom" else .ok (some s)

/-- Units where every symbol screens normally to itself. -/
def unitsOk : String → UnitResult := fun s => .ok (some s)

/-- A screened unit can only ever return its own symbol. -/
theorem screen_stock_some {sym t : String} {df : Option Series}
    (h : screen_stock sym df = some t) : t = sym := by
  cases df with
  | none => simp [screen_stock] at h
  | some d =>
    simp only [screen_stock] at h
    split at h
    · split at h
      · exact (Option.some_inj.mp h).symm
      · simp at h
    · simp at h

/-- A unit whose run contributes nothing can be dropped from the
submitted list without changing the aggregate. -/
theorem collect_skip {units : String → UnitResult} {s0 : String}
    (h : runUnit (units s0) = none) (l : List String) :
    collect units (l.filter (fun t => t != s0)) = collect units l := by
  induction l with
  | nil => rfl
  | cons a l ih =>
    simp only [collect] at ih ⊢
    by_cases ha : a = s0
    · subst ha
      rw [List.filter_cons_of_neg (by simp), ih, List.filterMap_cons, h]
    · rw [List.filter_cons_of_pos (by simp [ha])]
      simp only [List.filterMap_cons, ih]

/-- Agreement of the units on the submitted symbols gives equal
aggregates. -/
theorem collect_congr {u1 u2 : String → UnitResult} {l : List String}
    (h : ∀ t ∈ l, u1 t = u2 t) : collect u1 l = collect u2 l := by
  unfold collect
  exact List.filterMap_congr (fun a ha => by rw [h a ha])

/-- The subscription loop appends one seis per selected symbol. -/
theorem foldl_subscribe_eq (sel : List String) (acc : List Seis) :
    sel.foldl subscribe acc = acc ++ sel.map (fun s => ⟨s, 1⟩) := by
  induction sel generalizing acc with
  | nil => simp
  | cons a l ih => simp [List.foldl_cons, subscribe, ih, List.append_assoc]

/-- C1: for a fetched series of at least 200 bars the verdict is Pass
exactly when all five conditions of line 98 hold on the latest bar; the
concrete spec scenario (close 105, short MA 100, long MA 98, day high
105.1, momentum 55, volume 2M against mean 1.5M) passes, and the same
scenario with momentum 75 does not pass. -/
theorem C1_pass_iff :
    (∀ (sym : String) (df : Series), 200 ≤ df.length →
      (screen_stock sym (some df) = some sym ↔
        meets_criteria (calculate_indicators df) = true))
    ∧ meets_criteria ⟨105, 100, 98, 1051 / 10, 55, 2000000, 1500000⟩ = true
    ∧ meets_criteria ⟨105, 100, 98, 1051 / 10, 75, 2000000, 1500000⟩ = false := by
  refine ⟨fun sym df h => ?_, by with_unfolding_all rfl, by with_unfolding_all rfl⟩
  simp only [screen_stock, if_pos h]
  cases hm : meets_criteria (calculate_indicators df) <;> simp [hm]

/-- C1 witness: the equivalence instantiated on a concrete 200 bar
series. -/
theorem C1_pass_iff_witness :
    screen_stock "A" (some sFail200) = some "A" ↔
      meets_criteria (calculate_indicators sFail200) = true :=
  C1_pass_iff.1 "A" sFail200 (by simp only [sFail200, List.length_replicate]; omega)

set_option maxRecDepth 100000 in
set_option maxHeartbeats 1000000 in
/-- C2 counterexample: a 120 bar series (Unavailable in the words of the
spec) and a 200 bar series with defined indicators failing the predicate
(Fail) produce the very same verdict value None, and the batch puts both
in the same bucket, the empty pass-list: the code has no distinct
Unavailable outcome. -/
theorem C2_counterexample :
    screen_stock "A" (some s120) = screen_stock "A" (some sFail200)
    ∧ screen_batch pUF ["U", "F"] = [] := by
  exact ⟨by with_unfolding_all rfl, by with_unfolding_all rfl⟩

set_option maxRecDepth 100000 in
set_option maxHeartbeats 1000000 in
/-- C2 amended: a missing fetch result or a series shorter than 200 bars
never yields Pass, but its verdict is the same None a predicate failure
produces, not a distinct Unavailable bucket. -/
theorem C2_amended :
    (∀ sym : String, screen_stock sym none = none)
    ∧ (∀ (sym : String) (df : Series), df.length < 200 →
        screen_stock sym (some df) = none)
    ∧ screen_stock "A" (some sFail200) = none := by
  refine ⟨fun _ => rfl, fun sym df h => ?_, by with_unfolding_all rfl⟩
  simp only [screen_stock]
  rw [if_neg (by omega)]

/-- C2 witness: the short-series case instantiated on the 120 bar
series. -/
theorem C2_amended_witness : screen_stock "A" (some s120) = none :=
  C2_amended.2.1 "A" s120 (by
    simp only [s120, List.length_append, List.length_replicate, List.length_cons,
      List.length_nil]
    omega)

set_option maxRecDepth 100000 in
set_option maxHeartbeats 1000000 in
/-- C3 counterexample: with a provider whose data passes the screen, a
universe list with a duplicated symbol produces that symbol twice in the
pass-list, because one future per occurrence is submitted. -/
theorem C3_counterexample : (screen_batch pPass ["A", "A"]).count "A" = 2 := by
  with_unfolding_all rfl

/-- C3 amended: the pass-list has no duplicates whenever the input
universe list has none; a screened unit can only contribute its own
symbol, so distinct units contribute distinct entries. -/
theorem C3_amended :
    ∀ (provider : String → Option Series) (symbols : List String),
      symbols.Nodup → (screen_batch provider symbols).Nodup := by
  intro provider symbols h
  unfold screen_batch collect
  refine List.Nodup.filterMap (fun a a' b hb hb' => ?_) h
  simp only [runUnit, screen_stock_fetch] at hb hb'
  have h1 : b = a := screen_stock_some (Option.mem_def.mp hb)
  have h2 : b = a' := screen_stock_some (Option.mem_def.mp hb')
  rw [← h1, ← h2]

/-- C3 witness: a duplicate-free universe yields a duplicate-free
pass-list. -/
theorem C3_amended_witness : (screen_batch pPass ["A", "B"]).Nodup :=
  C3_amended pPass ["A", "B"] (by decide)

/-- C4: a unit that raises contributes nothing while its siblings are
unaffected: the batch aggregate equals the aggregate over the other
symbols alone, and the verdicts of those other symbols do not depend on
what happened to the failing unit. -/
theorem C4_failure_isolation :
    ∀ (units units2 : String → UnitResult) (s0 e : String) (symbols : List String),
      units s0 = .exn e →
      (∀ t, t ≠ s0 → units2 t = units t) →
      collect units symbols = collect units (symbols.filter (fun t => t != s0))
      ∧ collect units2 (symbols.filter (fun t => t != s0))
          = collect units (symbols.filter (fun t => t != s0)) := by
  intro units units2 s0 e symbols h hagree
  have hnone : runUnit (units s0) = none := by rw [h]; rfl
  constructor
  · exact (collect_skip hnone symbols).symm
  · refine collect_congr (fun t ht => ?_)
    have hne : t ≠ s0 := by
      have hmem := List.mem_filter.mp ht
      simpa [bne_iff_ne] using hmem.2
    exact hagree t hne

/-- C4 witness: isolation instantiated with a unit for symbol B
raising. -/
theorem C4_failure_isolation_witness :
    collect unitsExnB ["A", "B", "C"]
        = collect unitsExnB (["A", "B", "C"].filter (fun t => t != "B"))
    ∧ collect unitsOk (["A", "B", "C"].filter (fun t => t != "B"))
        = collect unitsExnB (["A", "B", "C"].filter (fun t => t != "B")) :=
  C4_failure_isolation unitsExnB unitsOk "B" "boom" ["A", "B", "C"] rfl
    (fun t ht => by simp [unitsExnB, unitsOk, ht])

/-- C5 counterexample: after the same symbol appears twice in the
selected list the loop opens two live feeds for it, each with its own
consumer, so subscribing twice does not leave exactly one feed. -/
theorem C5_counterexample :
    (subscribe_all ["A", "A"]).length = 2
    ∧ ((subscribe_all ["A", "A"]).filter (fun x => x.symbol == "A")).length = 2 :=
  ⟨rfl, rfl⟩

/-- C5 amended: the subscription loop opens exactly one feed with exactly
one consumer per occurrence in the selected list and performs no
idempotence check, so n occurrences of a symbol yield n live feeds. -/
theorem C5_amended :
    ∀ selected : List String,
      subscribe_all selected = selected.map (fun s => ⟨s, 1⟩) := by
  intro selected
  unfold subscribe_all
  rw [foldl_subscribe_eq]
  simp

/-- C6 counterexample: when detaching the consumer of A raises, the close
step for A is never attempted (paired with false) and B is not torn down
at all: the loop body has no exception handling. -/
theorem C6_counterexample :
    signal_handler_teardown (fun s => s == "A") ["A", "B"]
      = ([("A", false)], some "A") := by
  rfl

/-- C6 amended: when no detach raises, both steps run for every tracked
subscription and the loop completes; a raising detach instead skips the
close step of that subscription and aborts the teardown of all remaining
ones. -/
theorem C6_amended :
    (∀ (detachFails : String → Bool) (l : List String),
      (∀ s ∈ l, detachFails s = false) →
      signal_handler_teardown detachFails l = (l.map (fun s => (s, true)), none))
    ∧ (∀ (detachFails : String → Bool) (a : String) (rest : List String),
        detachFails a = true →
        signal_handler_teardown detachFails (a :: rest)
          = ([(a, false)], some a)) := by
  constructor
  · intro dF l h
    induction l with
    | nil => rfl
    | cons a rest ih =>
      have ha : dF a = false := h a (by simp)
      have hr := ih (fun s hs => h s (by simp [hs]))
      simp [signal_handler_teardown, ha, hr]
  · intro dF a rest h
    simp [signal_handler_teardown, h]

/-- C6 witness: the no-failure branch instantiated on two
subscriptions. -/
theorem C6_amended_witness :
    signal_handler_teardown (fun _ => false) ["A", "B"]
      = ([("A", true), ("B", true)], none) :=
  C6_amended.1 (fun _ => false) ["A", "B"] (fun _ _ => rfl)

/-- C7 counterexample: with an empty universe list loaded successfully,
main completes normally with an empty pass-list and no subscriptions;
the run does not exit with a non-zero status, so there is no fail-fast
on an empty universe. -/
theorem C7_counterexample :
    main (.ok []) (fun _ => none) = .completed [] []
    ∧ exitsNonZero (main (.ok []) (fun _ => none)) = false :=
  ⟨rfl, rfl⟩

/-- C7 amended: an empty universe list does not abort the run: main logs
a warning, skips screening and subscribing and completes normally with
exit status zero; only a failure while loading the universe list exits
the process with status 1 at startup. -/
theorem C7_amended :
    (∀ provider, main (.ok []) provider = .completed [] [])
    ∧ (∀ e provider, main (.error e) provider = .fatalExit 1) :=
  ⟨fun _ => rfl, fun _ _ => rfl⟩

set_option maxRecDepth 100000 in
set_option maxHeartbeats 1000000 in
/-- C8 counterexample: with the stop flag already set, a symbol whose
unit has not started is still fetched, evaluated and can even pass: the
flag does not prevent any unit from running. -/
theorem C8_counterexample :
    screen_batch_flagged true pPass ["A"] = ["A"] := by
  with_unfolding_all rfl

/-- C8 amended: the stop flag is never consulted by the batch: the
screened units and their aggregate are identical whether or not the flag
is set, and every submitted symbol is processed either way. -/
theorem C8_amended :
    ∀ (stop_flag : Bool) (provider : String → Option Series) (symbols : List String),
      screen_batch_flagged stop_flag provider symbols = screen_batch provider symbols
      ∧ screen_batch_flagged true provider symbols
          = screen_batch_flagged false provider symbols :=
  fun _ _ _ => ⟨rfl, rfl⟩

/-- C9: the verdict of one symbol is a deterministic pure function of the
series the provider returns for that symbol: two providers agreeing on a
symbol give that symbol the same verdict, and the pass decision does not
depend on the symbol name either. -/
theorem C9_verdict_pure :
    (∀ (p p2 : String → Option Series) (sym : String),
      p sym = p2 sym → screen_stock_fetch p sym = screen_stock_fetch p2 sym)
    ∧ (∀ (s1 s2 : String) (df : Option Series),
        (screen_stock s1 df).isSome = (screen_stock s2 df).isSome) := by
  constructor
  · intro p p2 sym h
    simp only [screen_stock_fetch, fetch_historical_data, h]
  · intro s1 s2 df
    cases df with
    | none => rfl
    | some d =>
      simp only [screen_stock]
      split
      · split <;> rfl
      · rfl

/-- C9 witness: two concrete providers agreeing on symbol A yield the
same verdict for A. -/
theorem C9_verdict_pure_witness :
    screen_stock_fetch pPass "A" = screen_stock_fetch pOnlyA "A" :=
  C9_verdict_pure.1 pPass pOnlyA "A" (by simp [pPass, pOnlyA])

/-- C10: every symbol in the aggregated pass-list is an element of the
submitted universe, because a screened unit returns its own symbol or
nothing. -/
theorem C10_pass_subset :
    (∀ (provider : String → Option Series) (symbols : List String) (x : String),
      x ∈ screen_batch provider symbols → x ∈ symbols)
    ∧ (∀ (sym t : String) (df : Option Series),
        screen_stock sym df = some t → t = sym) := by
  constructor
  · intro provider symbols x hx
    unfold screen_batch collect at hx
    obtain ⟨a, ha, hfa⟩ := List.mem_filterMap.mp hx
    have hxa : x = a := by
      apply screen_stock_some
      simpa [runUnit, screen_stock_fetch] using hfa
    subst hxa
    exact ha
  · intro sym t df h
    exact screen_stock_some h

set_option maxRecDepth 100000 in
set_option maxHeartbeats 1000000 in
/-- C10 witness: membership transported from a concrete pass-list to the
concrete universe. -/
theorem C10_pass_subset_witness : "A" ∈ (["A"] : List String) :=
  C10_pass_subset.1 pPass ["A"] "A" (by
    have h : screen_batch pPass ["A"] = ["A"] := by with_unfolding_all rfl
    rw [h]
    simp)

end StockScreener
